import Mathlib

/-!
Verification of `migrate_objects.py` from Foodshareclub/foodshare-supamigrate.

The script copies storage objects from a source (old) hosted project to a
destination (new) project: it lists buckets of the source, attempts to create
each bucket in the destination, and for each object downloads it into a local
file named after the object, then uploads that file to the destination and
removes it.

The shallow embedding below models:
* the module-level execution order of the Python file (for the
  use-before-import of `os` on lines 6-9 vs line 20);
* the configuration dataflow (environment values loaded on lines 6-9,
  literal constants on lines 13-16, client construction on lines 24-25);
* the migration loop (lines 28-52) as a deterministic state transformer over
  a `World` (source project, destination project, local filesystem, log,
  event trace), parameterised by an `Oracle` that decides which remote calls
  raise, mirroring the SDK contract in which every remote operation may fail.
-/

namespace Migrate

/-- Bytes of an object, one `Nat` per byte. -/
abbrev Bytes := List Nat

/-- The source (old) project: its buckets (name and public flag), the object
listing of each bucket, and the stored content of each object.
Read via `list_buckets` (line 28), `list()` (line 31) and `download`
(line 40). -/
structure SrcProject where
  buckets : List (String × Bool)
  objNames : String → List String
  objs : String → String → Option Bytes

/-- The destination (new) project: buckets created so far and the stored
objects, written via `create_bucket` (line 33) and `upload` (line 47). -/
structure DstProject where
  buckets : List (String × Bool)
  objs : String → String → Option Bytes

/-- One remote API call made by the script, in program order.  Calls on the
old (source) client: `listBuckets` (line 28), `listObjects` (line 31),
`download` (line 40).  Calls on the new (destination) client:
`createBucket` (line 33), `upload` (line 47). -/
inductive Event where
  | listBuckets : Event
  | listObjects (bucket : String) : Event
  | download (bucket object : String) : Event
  | createBucket (bucket : String) : Event
  | upload (bucket object : String) : Event
deriving DecidableEq, Repr

/-- An exception escaping the script uncaught (there is no try/except around
lines 28 and 31). -/
inductive Err where
  | listBucketsFailed : Err
  | listObjectsFailed (bucket : String) : Err
deriving DecidableEq, Repr

/-- Whole observable state: both projects, the local working directory
(`fs`, file name to content), the console log, and the trace of remote
calls. -/
structure World where
  src : SrcProject
  dst : DstProject
  fs : String → Option Bytes
  log : List String
  trace : List Event

/-- Point update of a file-system map. -/
def setFile (fs : String → Option Bytes) (n : String) (v : Option Bytes) :
    String → Option Bytes :=
  fun m => if m = n then v else fs m

/-- Point update of a bucket-indexed object store. -/
def setObj (st : String → String → Option Bytes) (b o : String)
    (v : Option Bytes) : String → String → Option Bytes :=
  fun b' o' => if b' = b ∧ o' = o then v else st b' o'

/-- Decides which calls of the run raise, abstracting network/auth/storage
failures of the SDK.  `openWFails n` models `open(n, 'wb+')` raising
(line 39, e.g. an unwritable path). -/
structure Oracle where
  listBucketsFails : Bool
  listObjectsFails : String → Bool
  createBucketFails : String → Bool
  openWFails : String → Bool
  downloadFails : String → String → Bool
  uploadFails : String → String → Bool

/-- Lines 38-44 of the source, the download try/except for one object:

    try:
      with open(obj['name'], 'wb+') as f:
        res = old_supabase_client.storage().from_(bucket.name).download(obj['name'])
        f.write(res)
        f.close()
    except Exception as e:
        print("error downloading "+ str(e))

`open(..., 'wb+')` creates the file truncated to empty; if the download call
then raises, the exception is caught after the `with` block closed the file,
so the empty file stays on disk. -/
def downloadPhase (ω : Oracle) (bname oname : String) (w : World) : World :=
  if ω.openWFails oname then
    { w with log := w.log ++ ["error downloading "] }
  else
    let w := { w with fs := setFile w.fs oname (some []) }
    let w := { w with trace := w.trace ++ [Event.download bname oname] }
    if ω.downloadFails bname oname then
      { w with log := w.log ++ ["error downloading "] }
    else
      match w.src.objs bname oname with
      | none => { w with log := w.log ++ ["error downloading "] }
      | some bytes => { w with fs := setFile w.fs oname (some bytes) }

/-- Lines 45-52 of the source, the upload try/except for one object:

    try:
      with open(obj['name'], 'rb+') as f:
        res = new_supabase_client.storage().from_(bucket.name).upload(obj['name'], obj['name'])
      # Delete file after uploading it
      if os.path.exists(os.path.abspath(obj['name'])):
          os.remove(os.path.abspath(obj['name']))
    except Exception as e:
      print("error uploading | " + str(e))

`open(..., 'rb+')` raises if no local file of that name exists, in which case
the upload call is never reached.  The upload sends the content of the local
file; on its success the file exists, so `os.remove` deletes it. -/
def uploadPhase (ω : Oracle) (bname oname : String) (w : World) : World :=
  match w.fs oname with
  | none => { w with log := w.log ++ ["error uploading | "] }
  | some content =>
    let w := { w with trace := w.trace ++ [Event.upload bname oname] }
    if ω.uploadFails bname oname then
      { w with log := w.log ++ ["error uploading | "] }
    else
      let w := { w with dst := { w.dst with objs := setObj w.dst.objs bname oname (some content) } }
      { w with fs := setFile w.fs oname none }

/-- Lines 37-52: one iteration of `for obj in objects`, i.e. the full
transfer cycle of one object: `print(obj['name'])`, the download try block,
then the upload try block. -/
def processObject (ω : Oracle) (bname oname : String) (w : World) : World :=
  let w := { w with log := w.log ++ [oname] }
  uploadPhase ω bname oname (downloadPhase ω bname oname w)

/-- Lines 36-52: `for obj in objects`, processing the listed objects in
order. -/
def foldObjects (ω : Oracle) (bname : String) (objects : List String)
    (w : World) : World :=
  objects.foldl (fun w o => processObject ω bname o w) w

/-- Lines 29-52: one iteration of `for bucket in buckets`.

    print("Copying objects from "+bucket.name)
    objects = old_supabase_client.storage().from_(bucket.name).list()
    try:
      new_supabase_client.storage().create_bucket(bucket.name, public=bucket.public)
    except:
      print("unable to create bucket")
    for obj in objects:
        ...

The `list()` call on line 31 is outside any try block: its failure escapes
(`some Err`).  The `create_bucket` failure is caught and only logged. -/
def processBucket (ω : Oracle) (b : String × Bool) (w : World) :
    World × Option Err :=
  let w := { w with log := w.log ++ ["Copying objects from " ++ b.1] }
  let w := { w with trace := w.trace ++ [Event.listObjects b.1] }
  if ω.listObjectsFails b.1 then
    (w, some (Err.listObjectsFailed b.1))
  else
    let objects := w.src.objNames b.1
    let w := { w with trace := w.trace ++ [Event.createBucket b.1] }
    let w :=
      if ω.createBucketFails b.1 then
        { w with log := w.log ++ ["unable to create bucket"] }
      else
        { w with dst := { w.dst with buckets := w.dst.buckets ++ [b] } }
    (foldObjects ω b.1 objects w, none)

/-- The bucket loop of lines 29-52: buckets are processed in listing order;
the first uncaught exception stops the run. -/
def runBuckets (ω : Oracle) : List (String × Bool) → World → World × Option Err
  | [], w => (w, none)
  | b :: bs, w =>
    match processBucket ω b w with
    | (w', none) => runBuckets ω bs w'
    | (w', some e) => (w', some e)

/-- Lines 28-52: `buckets = old_supabase_client.storage().list_buckets()`
(uncaught on failure) followed by the bucket loop. -/
def runMigration (ω : Oracle) (w : World) : World × Option Err :=
  let w := { w with trace := w.trace ++ [Event.listBuckets] }
  if ω.listBucketsFails then
    (w, some Err.listBucketsFailed)
  else
    runBuckets ω w.src.buckets w

/-! ### Configuration dataflow (lines 5-25) -/

/-- Line 13: `OLD_DB_URL='https://foodshare_project_ref.supabase.co'`. -/
def OLD_DB_URL : String := "https://foodshare_project_ref.supabase.co"

/-- Line 14: `NEW_DB_URL='https://postgres_project_ref.supabase.co'`. -/
def NEW_DB_URL : String := "https://postgres_project_ref.supabase.co"

/-- Line 15: `OLD_SERVICE_KEY='foodshare_service_key'`. -/
def OLD_SERVICE_KEY : String := "foodshare_service_key"

/-- Line 16: `NEW_SERVICE_KEY='postgres_service_key'`. -/
def NEW_SERVICE_KEY : String := "postgres_service_key"

/-- The four values read from the process environment on lines 6-9 via
`os.getenv` (each `none` when the variable is unset). -/
structure LoadedEnv where
  foodshare_project_ref : Option String
  postgres_project_ref : Option String
  foodshare_service_key : Option String
  postgres_service_key : Option String
deriving DecidableEq, Repr

/-- Lines 6-9: the environment lookups, as a function of the state of the
process environment `getenv`. -/
def loadEnv (getenv : String → Option String) : LoadedEnv :=
  { foodshare_project_ref := getenv "foodshare_project_ref"
    postgres_project_ref := getenv "postgres_project_ref"
    foodshare_service_key := getenv "foodshare_service_key"
    postgres_service_key := getenv "postgres_service_key" }

/-- Lines 24-25: the argument pairs passed to the two `create_client` calls,
as a function of the process environment.  The loaded values are bound
(lines 6-9) but the constructor arguments are the literal constants of
lines 13-16. -/
def clientArgs (getenv : String → Option String) :
    (String × String) × (String × String) :=
  let _loaded := loadEnv getenv
  ((OLD_DB_URL, OLD_SERVICE_KEY), (NEW_DB_URL, NEW_SERVICE_KEY))

/-! ### Module-level execution order (the whole file as Python statements)

Python executes a module top to bottom; a statement that reads a name not
yet bound in the module (or builtin) scope raises `NameError` and, uncaught,
stops execution there. -/

/-- The observable effect a module statement has beyond binding names. -/
inductive Effect where
  | pure : Effect
  | constructClient : Effect
  | storageOps : Effect
deriving DecidableEq, Repr

/-- A module-level Python statement, abstracted to the names it reads, the
names it binds, and its effect class. -/
structure PyStmt where
  reads : List String
  binds : List String
  effect : Effect
deriving DecidableEq, Repr

/-- A `NameError` naming the unresolved identifier. -/
inductive PyErr where
  | nameError (n : String) : PyErr
deriving DecidableEq, Repr

/-- State of module execution: bound names and which effects were reached. -/
structure ModState where
  bound : List String
  clientsConstructed : Bool
  storageOpsReached : Bool
deriving DecidableEq, Repr

/-- Execute one statement: raise `NameError` on the first unbound name read,
otherwise bind the new names and record the effect. -/
def execStmt (s : ModState) (st : PyStmt) : ModState × Option PyErr :=
  match st.reads.find? (fun n => ¬ s.bound.contains n) with
  | some n => (s, some (PyErr.nameError n))
  | none =>
    ({ bound := s.bound ++ st.binds
       clientsConstructed := s.clientsConstructed || st.effect == Effect.constructClient
       storageOpsReached := s.storageOpsReached || st.effect == Effect.storageOps },
     none)

/-- Execute statements in order, stopping at the first uncaught error. -/
def execStmts (s : ModState) : List PyStmt → ModState × Option PyErr
  | [] => (s, none)
  | st :: rest =>
    match execStmt s st with
    | (s', none) => execStmts s' rest
    | (s', some e) => (s', some e)

/-- The module-level statements of `migrate_objects.py`, in source order. -/
def moduleStmts : List PyStmt :=
  [ -- line 3: from dotenv import load_dotenv
    ⟨[], ["load_dotenv"], Effect.pure⟩,
    -- line 5: load_dotenv()
    ⟨["load_dotenv"], [], Effect.pure⟩,
    -- line 6: foodshare_project_ref = os.getenv('foodshare_project_ref')
    ⟨["os"], ["foodshare_project_ref"], Effect.pure⟩,
    -- line 7: postgres_project_ref = os.getenv('postgres_project_ref')
    ⟨["os"], ["postgres_project_ref"], Effect.pure⟩,
    -- line 8: foodshare_service_key = os.getenv('foodshare_service_key')
    ⟨["os"], ["foodshare_service_key"], Effect.pure⟩,
    -- line 9: postgres_service_key = os.getenv('postgres_service_key')
    ⟨["os"], ["postgres_service_key"], Effect.pure⟩,
    -- lines 13-16: the four literal constant assignments
    ⟨[], ["OLD_DB_URL"], Effect.pure⟩,
    ⟨[], ["NEW_DB_URL"], Effect.pure⟩,
    ⟨[], ["OLD_SERVICE_KEY"], Effect.pure⟩,
    ⟨[], ["NEW_SERVICE_KEY"], Effect.pure⟩,
    -- line 19: from supabase import create_client
    ⟨[], ["create_client"], Effect.pure⟩,
    -- line 20: import os
    ⟨[], ["os"], Effect.pure⟩,
    -- line 21: filedata = ''
    ⟨[], ["filedata"], Effect.pure⟩,
    -- line 24: old_supabase_client = create_client(OLD_DB_URL, OLD_SERVICE_KEY)
    ⟨["create_client", "OLD_DB_URL", "OLD_SERVICE_KEY"], ["old_supabase_client"],
      Effect.constructClient⟩,
    -- line 25: new_supabase_client = create_client(NEW_DB_URL, NEW_SERVICE_KEY)
    ⟨["create_client", "NEW_DB_URL", "NEW_SERVICE_KEY"], ["new_supabase_client"],
      Effect.constructClient⟩,
    -- lines 28-52: the bucket/object loops (first storage call on line 28)
    ⟨["old_supabase_client", "new_supabase_client", "os"], ["buckets"],
      Effect.storageOps⟩ ]

/-- Running the module from an empty module scope. -/
def execModule : ModState × Option PyErr :=
  execStmts ⟨[], false, false⟩ moduleStmts

/-! ### Sample projects and oracles for concrete runs

These instantiate the scenario of the specification: a public source bucket
`"photos"` holding `"a.jpg"` and `"b.jpg"`, and an empty destination. -/

/-- A source project with one public bucket `"photos"` holding two objects. -/
def sampleSrc : SrcProject where
  buckets := [("photos", true)]
  objNames := fun b => if b = "photos" then ["a.jpg", "b.jpg"] else []
  objs := fun b o =>
    if b = "photos" ∧ o = "a.jpg" then some [1, 2, 3]
    else if b = "photos" ∧ o = "b.jpg" then some [4, 5]
    else none

/-- An empty destination project. -/
def emptyDst : DstProject where
  buckets := []
  objs := fun _ _ => none

/-- Initial world: sample source, empty destination, empty working
directory, nothing logged, nothing called yet. -/
def w0 : World where
  src := sampleSrc
  dst := emptyDst
  fs := fun _ => none
  log := []
  trace := []

/-- An oracle under which every remote call succeeds. -/
def okOracle : Oracle where
  listBucketsFails := false
  listObjectsFails := fun _ => false
  createBucketFails := fun _ => false
  openWFails := fun _ => false
  downloadFails := fun _ _ => false
  uploadFails := fun _ _ => false

/-- Every call succeeds except the download and the upload of
`photos/a.jpg`. -/
def dlUpFailOracle : Oracle where
  listBucketsFails := false
  listObjectsFails := fun _ => false
  createBucketFails := fun _ => false
  openWFails := fun _ => false
  downloadFails := fun b o => b = "photos" ∧ o = "a.jpg"
  uploadFails := fun b o => b = "photos" ∧ o = "a.jpg"

/-- Every call succeeds except the download of `photos/a.jpg`. -/
def dlFailOracle : Oracle where
  listBucketsFails := false
  listObjectsFails := fun _ => false
  createBucketFails := fun _ => false
  openWFails := fun _ => false
  downloadFails := fun b o => b = "photos" ∧ o = "a.jpg"
  uploadFails := fun _ _ => false

/-- Every call succeeds except `list_buckets`. -/
def lbFailOracle : Oracle where
  listBucketsFails := true
  listObjectsFails := fun _ => false
  createBucketFails := fun _ => false
  openWFails := fun _ => false
  downloadFails := fun _ _ => false
  uploadFails := fun _ _ => false

/-- Every call succeeds except `list()` on bucket `"photos"`. -/
def loFailOracle : Oracle where
  listBucketsFails := false
  listObjectsFails := fun b => b = "photos"
  createBucketFails := fun _ => false
  openWFails := fun _ => false
  downloadFails := fun _ _ => false
  uploadFails := fun _ _ => false

/-- Every call succeeds except `create_bucket("photos")`. -/
def cbFailOracle : Oracle where
  listBucketsFails := false
  listObjectsFails := fun _ => false
  createBucketFails := fun b => b = "photos"
  openWFails := fun _ => false
  downloadFails := fun _ _ => false
  uploadFails := fun _ _ => false

/-! ### Helper lemmas -/

/-- The transfer of object `o` from bucket `b` runs into no failure: the
local open, the download and the upload all succeed and the source stores
content for the object. -/
def cleanTransfer (ω : Oracle) (src : SrcProject) (b o : String) : Prop :=
  ω.openWFails o = false ∧ ω.downloadFails b o = false ∧
    ω.uploadFails b o = false ∧ (src.objs b o).isSome = true

instance (ω : Oracle) (src : SrcProject) (b o : String) :
    Decidable (cleanTransfer ω src b o) := by
  unfold cleanTransfer; infer_instance

theorem setFile_same (fs : String → Option Bytes) (n : String)
    (v : Option Bytes) : setFile fs n v n = v := by
  simp [setFile]

theorem setFile_other (fs : String → Option Bytes) (n m : String)
    (v : Option Bytes) (h : m ≠ n) : setFile fs n v m = fs m := by
  simp [setFile, h]

theorem setObj_same (st : String → String → Option Bytes) (b o : String)
    (v : Option Bytes) : setObj st b o v b o = v := by
  simp [setObj]

theorem setObj_other (st : String → String → Option Bytes) (b o b' o' : String)
    (v : Option Bytes) (h : o' ≠ o) : setObj st b o v b' o' = st b' o' := by
  simp [setObj, h]

theorem downloadPhase_src (ω : Oracle) (b o : String) (w : World) :
    (downloadPhase ω b o w).src = w.src := by
  unfold downloadPhase
  repeat' first | split | rfl | dsimp only

theorem downloadPhase_dst (ω : Oracle) (b o : String) (w : World) :
    (downloadPhase ω b o w).dst = w.dst := by
  unfold downloadPhase
  repeat' first | split | rfl | dsimp only

theorem uploadPhase_src (ω : Oracle) (b o : String) (w : World) :
    (uploadPhase ω b o w).src = w.src := by
  unfold uploadPhase
  repeat' first | split | dsimp only

theorem processObject_src (ω : Oracle) (b o : String) (w : World) :
    (processObject ω b o w).src = w.src := by
  unfold processObject
  rw [uploadPhase_src, downloadPhase_src]

theorem uploadPhase_dst_other (ω : Oracle) (b o b' o' : String) (w : World)
    (h : o' ≠ o) : (uploadPhase ω b o w).dst.objs b' o' = w.dst.objs b' o' := by
  unfold uploadPhase
  repeat' first | split | dsimp only
  all_goals simp [setObj, h]

theorem processObject_dst_other (ω : Oracle) (b o b' o' : String) (w : World)
    (h : o' ≠ o) :
    (processObject ω b o w).dst.objs b' o' = w.dst.objs b' o' := by
  unfold processObject
  rw [uploadPhase_dst_other _ _ _ _ _ _ h]
  rw [downloadPhase_dst]

theorem foldObjects_src (ω : Oracle) (b : String) (objects : List String)
    (w : World) : (foldObjects ω b objects w).src = w.src := by
  induction objects generalizing w with
  | nil => rfl
  | cons o rest ih =>
    show (foldObjects ω b rest (processObject ω b o w)).src = w.src
    rw [ih, processObject_src]

theorem processObject_success (ω : Oracle) (b o : String) (w : World)
    (bytes : Bytes) (h1 : ω.openWFails o = false)
    (h2 : ω.downloadFails b o = false) (h3 : w.src.objs b o = some bytes)
    (h4 : ω.uploadFails b o = false) :
    (processObject ω b o w).dst.objs b o = some bytes ∧
      (processObject ω b o w).fs o = none := by
  unfold processObject downloadPhase uploadPhase
  simp [h1, h2, h3, h4, setFile, setObj]

theorem downloadPhase_log (ω : Oracle) (b o : String) (w : World) :
    ∃ t, (downloadPhase ω b o w).log = w.log ++ t := by
  unfold downloadPhase
  repeat' first | split | dsimp only
  all_goals first
    | exact ⟨_, rfl⟩
    | exact ⟨[], (List.append_nil _).symm⟩

theorem uploadPhase_log (ω : Oracle) (b o : String) (w : World) :
    ∃ t, (uploadPhase ω b o w).log = w.log ++ t := by
  unfold uploadPhase
  repeat' first | split | dsimp only
  all_goals first
    | exact ⟨_, rfl⟩
    | exact ⟨[], (List.append_nil _).symm⟩

theorem processObject_log (ω : Oracle) (b o : String) (w : World) :
    ∃ t, (processObject ω b o w).log = w.log ++ t := by
  unfold processObject
  obtain ⟨t1, h1⟩ :=
    downloadPhase_log ω b o { w with log := w.log ++ [o] }
  obtain ⟨t2, h2⟩ := uploadPhase_log ω b o (downloadPhase ω b o _)
  exact ⟨[o] ++ t1 ++ t2, by rw [h2, h1]; simp⟩

theorem foldObjects_log (ω : Oracle) (b : String) (objects : List String)
    (w : World) : ∃ t, (foldObjects ω b objects w).log = w.log ++ t := by
  induction objects generalizing w with
  | nil => exact ⟨[], (List.append_nil _).symm⟩
  | cons o rest ih =>
    obtain ⟨t1, h1⟩ := processObject_log ω b o w
    obtain ⟨t2, h2⟩ := ih (processObject ω b o w)
    exact ⟨t1 ++ t2, by
      show (foldObjects ω b rest (processObject ω b o w)).log = _
      rw [h2, h1]; simp⟩

theorem downloadPhase_trace (ω : Oracle) (b o : String) (w : World) :
    ∃ t, (downloadPhase ω b o w).trace = w.trace ++ t ∧
      ∀ e ∈ t, e = Event.download b o := by
  unfold downloadPhase
  repeat' first | split | dsimp only
  all_goals first
    | exact ⟨[], (List.append_nil _).symm, by simp⟩
    | exact ⟨[Event.download b o], rfl, by simp⟩

theorem uploadPhase_trace (ω : Oracle) (b o : String) (w : World) :
    ∃ t, (uploadPhase ω b o w).trace = w.trace ++ t ∧
      ∀ e ∈ t, e = Event.upload b o := by
  unfold uploadPhase
  repeat' first | split | dsimp only
  all_goals first
    | exact ⟨[], (List.append_nil _).symm, by simp⟩
    | exact ⟨[Event.upload b o], rfl, by simp⟩

theorem processObject_trace (ω : Oracle) (b o : String) (w : World) :
    ∃ t, (processObject ω b o w).trace = w.trace ++ t ∧
      ∀ e ∈ t, e = Event.download b o ∨ e = Event.upload b o := by
  unfold processObject
  obtain ⟨t1, h1, p1⟩ :=
    downloadPhase_trace ω b o { w with log := w.log ++ [o] }
  obtain ⟨t2, h2, p2⟩ := uploadPhase_trace ω b o (downloadPhase ω b o _)
  refine ⟨t1 ++ t2, by rw [h2, h1]; simp, ?_⟩
  intro e he
  rcases List.mem_append.mp he with h | h
  · exact Or.inl (p1 e h)
  · exact Or.inr (p2 e h)

theorem foldObjects_trace (ω : Oracle) (b : String) (objects : List String)
    (w : World) :
    ∃ t, (foldObjects ω b objects w).trace = w.trace ++ t ∧
      ∀ e ∈ t, ∃ o, e = Event.download b o ∨ e = Event.upload b o := by
  induction objects generalizing w with
  | nil => exact ⟨[], (List.append_nil _).symm, by simp⟩
  | cons o rest ih =>
    obtain ⟨t1, h1, p1⟩ := processObject_trace ω b o w
    obtain ⟨t2, h2, p2⟩ := ih (processObject ω b o w)
    refine ⟨t1 ++ t2, by
      show (foldObjects ω b rest (processObject ω b o w)).trace = _
      rw [h2, h1]; simp, ?_⟩
    intro e he
    rcases List.mem_append.mp he with h | h
    · exact ⟨o, p1 e h⟩
    · exact p2 e h

theorem foldObjects_dst_not_mem (ω : Oracle) (b o : String)
    (objects : List String) (w : World) (h : o ∉ objects) :
    (foldObjects ω b objects w).dst.objs b o = w.dst.objs b o := by
  induction objects generalizing w with
  | nil => rfl
  | cons o' rest ih =>
    show (foldObjects ω b rest (processObject ω b o' w)).dst.objs b o = _
    rw [ih _ (fun hm => h (List.mem_cons_of_mem _ hm))]
    exact processObject_dst_other ω b o' b o w
      (fun he => h (he ▸ List.mem_cons_self o' rest))

theorem foldObjects_dst_mem (ω : Oracle) (b o : String)
    (objects : List String) (w : World) (hnd : objects.Nodup)
    (hm : o ∈ objects) (hc : cleanTransfer ω w.src b o) :
    (foldObjects ω b objects w).dst.objs b o = w.src.objs b o := by
  induction objects generalizing w with
  | nil => cases hm
  | cons o' rest ih =>
    rcases List.mem_cons.mp hm with he | hmem
    · subst he
      obtain ⟨bytes, hb⟩ := Option.isSome_iff_exists.mp hc.2.2.2
      have hstep := processObject_success ω b o w bytes hc.1 hc.2.1 hb hc.2.2.1
      show (foldObjects ω b rest (processObject ω b o w)).dst.objs b o = _
      rw [foldObjects_dst_not_mem ω b o rest _ (List.Nodup.not_mem hnd),
        hstep.1, hb]
    · have hsrc := processObject_src ω b o' w
      have hc' : cleanTransfer ω (processObject ω b o' w).src b o := by
        rw [hsrc]; exact hc
      show (foldObjects ω b rest (processObject ω b o' w)).dst.objs b o = _
      rw [ih (processObject ω b o' w) (List.Nodup.of_cons hnd) hmem hc', hsrc]

theorem processBucket_snd (ω : Oracle) (b : String × Bool) (w : World) :
    (processBucket ω b w).2 =
      if ω.listObjectsFails b.1 = true then some (Err.listObjectsFailed b.1)
      else none := by
  unfold processBucket
  repeat' first | split | dsimp only

theorem processBucket_src (ω : Oracle) (b : String × Bool) (w : World) :
    (processBucket ω b w).1.src = w.src := by
  unfold processBucket
  repeat' first | split | dsimp only
  all_goals simp [foldObjects_src]

theorem runBuckets_cons (ω : Oracle) (b : String × Bool)
    (bs : List (String × Bool)) (w : World) :
    runBuckets ω (b :: bs) w =
      match processBucket ω b w with
      | (w', none) => runBuckets ω bs w'
      | (w', some e) => (w', some e) := rfl

theorem runBuckets_src (ω : Oracle) (bs : List (String × Bool)) (w : World) :
    (runBuckets ω bs w).1.src = w.src := by
  induction bs generalizing w with
  | nil => rfl
  | cons b rest ih =>
    have hsrc := processBucket_src ω b w
    rcases h : processBucket ω b w with ⟨w', e⟩
    rw [h] at hsrc
    cases e with
    | none =>
      have heq : runBuckets ω (b :: rest) w = runBuckets ω rest w' := by
        rw [runBuckets_cons, h]
      rw [heq, ih, hsrc]
    | some er =>
      have heq : runBuckets ω (b :: rest) w = (w', some er) := by
        rw [runBuckets_cons, h]
      rw [heq]; exact hsrc

theorem runBuckets_ne_none (ω : Oracle) (bs : List (String × Bool))
    (w : World) (b : String × Bool) (hm : b ∈ bs)
    (hf : ω.listObjectsFails b.1 = true) : (runBuckets ω bs w).2 ≠ none := by
  induction bs generalizing w with
  | nil => cases hm
  | cons b' rest ih =>
    rcases h : processBucket ω b' w with ⟨w', e⟩
    have hsnd := processBucket_snd ω b' w
    rw [h] at hsnd
    cases e with
    | none =>
      have heq : runBuckets ω (b' :: rest) w = runBuckets ω rest w' := by
        rw [runBuckets_cons, h]
      rw [heq]
      rcases List.mem_cons.mp hm with he | hmem
      · exfalso
        subst he
        simp [hf] at hsnd
      · exact ih w' hmem
    | some er =>
      have heq : runBuckets ω (b' :: rest) w = (w', some er) := by
        rw [runBuckets_cons, h]
      rw [heq]
      simp

/-- Index of the first occurrence of an event in a trace (length of the
trace when absent). -/
def firstIdx (e : Event) : List Event → Nat
  | [] => 0
  | e' :: t => if e' = e then 0 else firstIdx e t + 1

/-! ### Claim theorems -/

/-- Claim C3 (confirmed): the two `create_client` calls of lines 24-25
receive the four literal placeholder constants of lines 13-16; the argument
pairs are the same for any two states of the process environment, so the
values loaded by `os.getenv` on lines 6-9 are never used. -/
theorem client_args_ignore_env (g₁ g₂ : String → Option String) :
    clientArgs g₁ = clientArgs g₂ ∧
      clientArgs g₁ =
        ((OLD_DB_URL, OLD_SERVICE_KEY), (NEW_DB_URL, NEW_SERVICE_KEY)) :=
  ⟨rfl, rfl⟩

/-- Claim C4 (confirmed): executing the module statements in source order
raises `NameError` for the name `os` (line 6 reads `os.getenv` while
`import os` only runs on line 20), before either client is constructed and
before any bucket or object operation is reached. -/
theorem module_raises_name_error :
    execModule.2 = some (PyErr.nameError "os") ∧
      execModule.1.clientsConstructed = false ∧
      execModule.1.storageOpsReached = false := by
  decide

/-- Claim C2 (confirmed): at the start of the upload try block (lines
45-52) the local file for object `o` holds `c`; the file is deleted by
`os.remove` if and only if the upload call returns normally, and when the
upload raises the file persists with its content intact. -/
theorem file_removed_iff_upload_ok (ω : Oracle) (b o : String) (w : World)
    (c : Bytes) (h : w.fs o = some c) :
    ((uploadPhase ω b o w).fs o = none ↔ ω.uploadFails b o = false) ∧
      (ω.uploadFails b o = true → (uploadPhase ω b o w).fs o = some c) := by
  rcases hu : ω.uploadFails b o
  · simp [uploadPhase, h, hu, setFile]
  · simp [uploadPhase, h, hu]

/-- Witness for `file_removed_iff_upload_ok`: a concrete world whose
working directory holds `a.jpg`, under an all-success oracle. -/
theorem file_removed_iff_upload_ok_wit :
    ((uploadPhase okOracle "photos" "a.jpg"
        { w0 with fs := setFile w0.fs "a.jpg" (some [7]) }).fs "a.jpg" = none
      ↔ okOracle.uploadFails "photos" "a.jpg" = false) ∧
      (okOracle.uploadFails "photos" "a.jpg" = true →
        (uploadPhase okOracle "photos" "a.jpg"
          { w0 with fs := setFile w0.fs "a.jpg" (some [7]) }).fs "a.jpg" =
          some [7]) :=
  file_removed_iff_upload_ok okOracle "photos" "a.jpg"
    { w0 with fs := setFile w0.fs "a.jpg" (some [7]) } [7] (by decide)

/-- Claim C5 (confirmed): when the local open, the download and the upload
of object `o` in bucket `b` all succeed and the source stores `bytes` for
the object, the transfer cycle of lines 38-52 leaves the destination with
an object of the same name in the same bucket holding exactly the
downloaded `bytes`, and no local file of that name remains. -/
theorem successful_transfer_copies_bytes (ω : Oracle) (b o : String)
    (w : World) (bytes : Bytes) (h1 : ω.openWFails o = false)
    (h2 : ω.downloadFails b o = false) (h3 : w.src.objs b o = some bytes)
    (h4 : ω.uploadFails b o = false) :
    (processObject ω b o w).dst.objs b o = some bytes ∧
      (processObject ω b o w).fs o = none :=
  processObject_success ω b o w bytes h1 h2 h3 h4

/-- Witness for `successful_transfer_copies_bytes`: the specification's
scenario object `photos/a.jpg` with content `[1, 2, 3]`. -/
theorem successful_transfer_copies_bytes_wit :
    (processObject okOracle "photos" "a.jpg" w0).dst.objs "photos" "a.jpg" =
        some [1, 2, 3] ∧
      (processObject okOracle "photos" "a.jpg" w0).fs "a.jpg" = none :=
  successful_transfer_copies_bytes okOracle "photos" "a.jpg" w0 [1, 2, 3]
    rfl rfl (by decide) rfl

/-- Claim C10 (confirmed): a whole run only reads the source project
(`list_buckets`, `list()`, `download` are the only calls on the old
client), so the source project component of the world is unchanged, whether
the run completes or stops at an uncaught exception. -/
theorem source_project_unchanged (ω : Oracle) (w : World) :
    (runMigration ω w).1.src = w.src := by
  unfold runMigration
  rcases h : ω.listBucketsFails
  · simp only [h, Bool.false_eq_true, if_false]
    exact runBuckets_src ω w.src.buckets _
  · simp [h]

/-- Claim C1 (counterexample): the claim "if the download step of object
`o` fails then no local file named `o` persists and no upload attempt for
`o` is made" is false.  For `photos/a.jpg` under an oracle failing its
download (and its upload), the transfer cycle leaves the truncated empty
file on disk and the trace records an upload attempt: `open(o, 'wb+')`
already created the file before the download call raised, and the second
try block then finds and uploads it. -/
theorem download_failure_skips_upload_cex :
    ¬ (∀ (ω : Oracle) (b o : String) (w : World),
        ω.openWFails o = false → ω.downloadFails b o = true →
        (processObject ω b o w).fs o = none ∧
          Event.upload b o ∉ (processObject ω b o w).trace) := by
  intro h
  have hc := h dlUpFailOracle "photos" "a.jpg" w0 rfl (by decide)
  exact absurd hc.1 (by decide)

/-- Claim C1 (amended): if the download call for object `o` raises after
`open(o, 'wb+')` succeeded, then "error downloading" is logged, the
truncated empty file persists through the download phase, an upload attempt
for `o` is still made, and afterwards the file remains on disk (empty)
exactly when that upload also fails: it persists when the upload raises and
is removed when the upload returns normally. -/
theorem download_failure_uploads_truncated_file (ω : Oracle) (b o : String)
    (w : World) (h1 : ω.openWFails o = false)
    (h2 : ω.downloadFails b o = true) :
    "error downloading " ∈ (processObject ω b o w).log ∧
      (downloadPhase ω b o w).fs o = some [] ∧
      Event.upload b o ∈ (processObject ω b o w).trace ∧
      (ω.uploadFails b o = true → (processObject ω b o w).fs o = some []) ∧
      (ω.uploadFails b o = false → (processObject ω b o w).fs o = none) := by
  rcases hu : ω.uploadFails b o
  · unfold processObject downloadPhase uploadPhase
    simp [h1, h2, hu, setFile]
  · unfold processObject downloadPhase uploadPhase
    simp [h1, h2, hu, setFile]

/-- Witness for `download_failure_uploads_truncated_file`: `photos/a.jpg`
under the oracle failing both its download and its upload. -/
theorem download_failure_uploads_truncated_file_wit :
    "error downloading " ∈
        (processObject dlUpFailOracle "photos" "a.jpg" w0).log ∧
      (downloadPhase dlUpFailOracle "photos" "a.jpg" w0).fs "a.jpg" =
        some [] ∧
      Event.upload "photos" "a.jpg" ∈
        (processObject dlUpFailOracle "photos" "a.jpg" w0).trace ∧
      (dlUpFailOracle.uploadFails "photos" "a.jpg" = true →
        (processObject dlUpFailOracle "photos" "a.jpg" w0).fs "a.jpg" =
          some []) ∧
      (dlUpFailOracle.uploadFails "photos" "a.jpg" = false →
        (processObject dlUpFailOracle "photos" "a.jpg" w0).fs "a.jpg" =
          none) :=
  download_failure_uploads_truncated_file dlUpFailOracle "photos" "a.jpg" w0
    rfl (by decide)

/-- Claim C9 (confirmed): when `open(o, 'wb+')` succeeds but the download
call raises, the local file exists truncated to empty, and the upload try
block proceeds with that file; when the upload then succeeds, the
destination gains an object `o` with empty content and the local file is
deleted. -/
theorem download_failure_empty_object (ω : Oracle) (b o : String)
    (w : World) (h1 : ω.openWFails o = false)
    (h2 : ω.downloadFails b o = true) (h4 : ω.uploadFails b o = false) :
    (downloadPhase ω b o w).fs o = some [] ∧
      Event.upload b o ∈ (processObject ω b o w).trace ∧
      (processObject ω b o w).dst.objs b o = some [] ∧
      (processObject ω b o w).fs o = none := by
  unfold processObject downloadPhase uploadPhase
  simp [h1, h2, h4, setFile, setObj]

/-- Witness for `download_failure_empty_object`: `photos/a.jpg` under the
oracle failing only its download. -/
theorem download_failure_empty_object_wit :
    (downloadPhase dlFailOracle "photos" "a.jpg" w0).fs "a.jpg" = some [] ∧
      Event.upload "photos" "a.jpg" ∈
        (processObject dlFailOracle "photos" "a.jpg" w0).trace ∧
      (processObject dlFailOracle "photos" "a.jpg" w0).dst.objs "photos"
          "a.jpg" = some [] ∧
      (processObject dlFailOracle "photos" "a.jpg" w0).fs "a.jpg" = none :=
  download_failure_empty_object dlFailOracle "photos" "a.jpg" w0 rfl
    (by decide) rfl

/-- Claim C8 (confirmed): the `list_buckets` call of line 28 and the
`list()` call of line 31 sit outside every try block; a failure of
`list_buckets` ends the run with that uncaught exception, and no run in
which some listed bucket's `list()` call fails can finish normally. -/
theorem listing_failures_propagate (ω : Oracle) (w : World) :
    (ω.listBucketsFails = true →
        (runMigration ω w).2 = some Err.listBucketsFailed) ∧
      (∀ b ∈ w.src.buckets, ω.listObjectsFails b.1 = true →
        (runMigration ω w).2 ≠ none) := by
  constructor
  · intro h
    unfold runMigration
    simp [h]
  · intro b hm hf
    unfold runMigration
    rcases hlb : ω.listBucketsFails
    · simp only [hlb, Bool.false_eq_true, if_false]
      exact runBuckets_ne_none ω w.src.buckets _ b hm hf
    · simp [hlb]

/-- Witness for `listing_failures_propagate`: a failing `list_buckets`
oracle, and a failing `list("photos")` oracle on the sample world. -/
theorem listing_failures_propagate_wit :
    (runMigration lbFailOracle w0).2 = some Err.listBucketsFailed ∧
      (runMigration loFailOracle w0).2 ≠ none :=
  ⟨(listing_failures_propagate lbFailOracle w0).1 rfl,
    (listing_failures_propagate loFailOracle w0).2 ("photos", true)
      (by decide) (by decide)⟩

/-- Claim C6 (confirmed): a failure of `create_bucket` for bucket `b`
(lines 32-35) is caught and only logged as "unable to create bucket"; the
object loop still runs, and every cleanly transferring listed object ends
up in the destination under the same bucket name with its source bytes. -/
theorem create_bucket_failure_nonfatal (ω : Oracle) (b : String × Bool)
    (w : World) (h1 : ω.listObjectsFails b.1 = false)
    (h2 : ω.createBucketFails b.1 = true) :
    (processBucket ω b w).2 = none ∧
      "unable to create bucket" ∈ (processBucket ω b w).1.log ∧
      ∀ o ∈ w.src.objNames b.1, (w.src.objNames b.1).Nodup →
        cleanTransfer ω w.src b.1 o →
        (processBucket ω b w).1.dst.objs b.1 o = w.src.objs b.1 o := by
  have heq : processBucket ω b w =
      (foldObjects ω b.1 (w.src.objNames b.1)
        { src := w.src, dst := w.dst, fs := w.fs,
          log := w.log ++ ["Copying objects from " ++ b.1] ++
            ["unable to create bucket"],
          trace := w.trace ++ [Event.listObjects b.1] ++
            [Event.createBucket b.1] }, none) := by
    unfold processBucket
    simp [h1, h2]
  refine ⟨by rw [heq], ?_, ?_⟩
  · rw [heq]
    obtain ⟨t, ht⟩ := foldObjects_log ω b.1 (w.src.objNames b.1) _
    rw [ht]
    simp
  · intro o hm hnd hc
    rw [heq]
    exact foldObjects_dst_mem ω b.1 o (w.src.objNames b.1) _ hnd hm hc

/-- Witness for `create_bucket_failure_nonfatal`: the sample bucket
`photos` under the oracle whose `create_bucket("photos")` fails. -/
theorem create_bucket_failure_nonfatal_wit :
    (processBucket cbFailOracle ("photos", true) w0).2 = none ∧
      "unable to create bucket" ∈
        (processBucket cbFailOracle ("photos", true) w0).1.log ∧
      (processBucket cbFailOracle ("photos", true) w0).1.dst.objs "photos"
          "a.jpg" = w0.src.objs "photos" "a.jpg" := by
  have h := create_bucket_failure_nonfatal cbFailOracle ("photos", true) w0
    rfl (by decide)
  exact ⟨h.1, h.2.1, h.2.2 "a.jpg" (by decide) (by decide) (by decide)⟩

/-- Claim C7 (counterexample): the claim that, for every source bucket, the
`create_bucket` attempt precedes the `list()` call on the source is false:
in the all-success run on the sample world, the trace records
`listObjects "photos"` at position 1 and `createBucket "photos"` at
position 2, since line 31 executes before line 33. -/
theorem create_before_list_cex :
    ¬ (∀ (ω : Oracle) (w : World), w.trace = [] →
        (runMigration ω w).2 = none →
        ∀ b ∈ w.src.buckets,
          firstIdx (Event.createBucket b.1) (runMigration ω w).1.trace <
            firstIdx (Event.listObjects b.1) (runMigration ω w).1.trace) := by
  intro h
  have hc := h okOracle w0 rfl (by decide) ("photos", true) (by decide)
  exact absurd hc (by decide)

/-- Claim C7 (amended): for every bucket whose `list()` call succeeds, the
processing trace extends the prior trace with the `listObjects` call first,
the `createBucket` attempt immediately after, and then only per-object
download/upload calls: listing precedes the bucket-creation attempt. -/
theorem list_precedes_create (ω : Oracle) (b : String × Bool) (w : World)
    (h : ω.listObjectsFails b.1 = false) :
    ∃ w' t, processBucket ω b w = (w', none) ∧
      w'.trace = w.trace ++ [Event.listObjects b.1] ++
        [Event.createBucket b.1] ++ t ∧
      ∀ e ∈ t, ∃ o, e = Event.download b.1 o ∨ e = Event.upload b.1 o := by
  rcases hc : ω.createBucketFails b.1
  · have heq : processBucket ω b w =
        (foldObjects ω b.1 (w.src.objNames b.1)
          { src := w.src,
            dst := { buckets := w.dst.buckets ++ [b], objs := w.dst.objs },
            fs := w.fs,
            log := w.log ++ ["Copying objects from " ++ b.1],
            trace := w.trace ++ [Event.listObjects b.1] ++
              [Event.createBucket b.1] }, none) := by
      unfold processBucket
      simp [h, hc]
    obtain ⟨t, ht, pt⟩ := foldObjects_trace ω b.1 (w.src.objNames b.1)
      { src := w.src,
        dst := { buckets := w.dst.buckets ++ [b], objs := w.dst.objs },
        fs := w.fs,
        log := w.log ++ ["Copying objects from " ++ b.1],
        trace := w.trace ++ [Event.listObjects b.1] ++
          [Event.createBucket b.1] }
    exact ⟨_, t, heq, ht, pt⟩
  · have heq : processBucket ω b w =
        (foldObjects ω b.1 (w.src.objNames b.1)
          { src := w.src, dst := w.dst, fs := w.fs,
            log := w.log ++ ["Copying objects from " ++ b.1] ++
              ["unable to create bucket"],
            trace := w.trace ++ [Event.listObjects b.1] ++
              [Event.createBucket b.1] }, none) := by
      unfold processBucket
      simp [h, hc]
    obtain ⟨t, ht, pt⟩ := foldObjects_trace ω b.1 (w.src.objNames b.1)
      { src := w.src, dst := w.dst, fs := w.fs,
        log := w.log ++ ["Copying objects from " ++ b.1] ++
          ["unable to create bucket"],
        trace := w.trace ++ [Event.listObjects b.1] ++
          [Event.createBucket b.1] }
    exact ⟨_, t, heq, ht, pt⟩

/-- Witness for `list_precedes_create`: the sample bucket `photos` under
the all-success oracle. -/
theorem list_precedes_create_wit :
    ∃ w' t, processBucket okOracle ("photos", true) w0 = (w', none) ∧
      w'.trace = w0.trace ++ [Event.listObjects "photos"] ++
        [Event.createBucket "photos"] ++ t ∧
      ∀ e ∈ t, ∃ o, e = Event.download "photos" o ∨
        e = Event.upload "photos" o :=
  list_precedes_create okOracle ("photos", true) w0 rfl

end Migrate
